import Mathlib

/-!
Verification of the postgres-vector-agent observe-reason-act-verify loop.

Shallow embedding of the repository's core modules:
* `src/agent/query_analyzer.py` — `QueryAnalyzer` (plan-tree analysis),
* `src/agent/optimizer.py` — `LLMOptimizer` (decision engine),
* `src/agent/database.py` — `DatabaseManager.create_index` / `analyze_query`,
* `src/agent/agent_core.py` — `AutoTuningAgent` (observe / reason / act / cycle).

Python strings are modelled by Lean `String`; the Python string operations
used by the source (`in`, `lower`, `strip`, `startswith`, `split`, `replace`)
are given explicit executable definitions over the character list so that
concrete runs reduce.  Python floats are modelled by `ℚ`; Python dicts of a
fixed shape are modelled by structures, with `Option` fields for keys that
may be absent (reading an absent key is a `KeyError`, modelled by `Except`).
-/

/-! ## Python string primitives -/

/-- Python `str.lower()`: character-wise lowercasing. -/
def pyLower (s : String) : String := ⟨s.data.map Char.toLower⟩

/-- Does the character list `l` start with the character list `p`?
Model of Python `str.startswith` on the underlying characters. -/
def strStarts : List Char → List Char → Bool
  | _, [] => true
  | [], _ :: _ => false
  | c :: cs, d :: ds => c == d && strStarts cs ds

/-- Does the character list `hay` contain `needle` as a contiguous run?
Model of the Python substring test `needle in hay`. -/
def containsL (needle : List Char) : List Char → Bool
  | [] => needle.isEmpty
  | c :: cs => strStarts (c :: cs) needle || containsL needle cs

/-- Python `needle in hay` on strings. -/
def pyContains (needle hay : String) : Bool := containsL needle.data hay.data

/-- Python `str.startswith` on strings. -/
def pyStartsWith (s pre : String) : Bool := strStarts s.data pre.data

/-- Python `str.strip()`: drop whitespace from both ends. -/
def pyStrip (s : String) : String :=
  ⟨(((s.data.dropWhile Char.isWhitespace).reverse).dropWhile Char.isWhitespace).reverse⟩

/-- Replace every occurrence of `pat` by `rep`, left to right
(model of Python `str.replace` on the character list). -/
def replaceL (pat rep : List Char) : List Char → List Char
  | [] => []
  | c :: cs =>
    if strStarts (c :: cs) pat ∧ pat ≠ [] then
      rep ++ replaceL pat rep (List.drop (pat.length - 1) cs)
    else
      c :: replaceL pat rep cs
termination_by l => l.length
decreasing_by
  · simp only [List.length_cons]
    have h := List.length_drop (pat.length - 1) cs
    omega
  · simp only [List.length_cons]; omega

/-- Python `str.replace` on strings. -/
def pyReplace (s pat rep : String) : String := ⟨replaceL pat.data rep.data s.data⟩

/-- Split a character list at newline characters (model of Python
`str.split('\n')`); `acc` holds the reversed current segment. -/
def splitNlGo (acc : List Char) : List Char → List (List Char)
  | [] => [acc.reverse]
  | c :: cs => if c == '\n' then acc.reverse :: splitNlGo [] cs else splitNlGo (c :: acc) cs

/-- Python `llm_output.split('\n')`. -/
def pySplitLines (s : String) : List String := (splitNlGo [] s.data).map (fun l => ⟨l⟩)

/-! ## Plan trees (`query_analyzer.py`)

A PostgreSQL `EXPLAIN (FORMAT JSON)` plan node carries `Node Type`,
`Actual Rows`, optional `Index Name`, and the child nodes under `Plans`.
A missing `Actual Rows` key is read with default `0` by the source
(`plan.get('Actual Rows', 0)`), so `actualRows` is a plain `Nat`;
a missing `Plans` key is the empty forest. -/

mutual
inductive PlanNode : Type where
  | mk (nodeType : String) (actualRows : Nat) (indexName : Option String) (children : PlanForest)

inductive PlanForest : Type where
  | nil
  | cons (p : PlanNode) (f : PlanForest)
end

/-- The `Node Type` label of a plan node. -/
def PlanNode.nodeType : PlanNode → String
  | .mk nt _ _ _ => nt

/-- The `Actual Rows` value of a plan node (`plan.get('Actual Rows', 0)`). -/
def PlanNode.actualRows : PlanNode → Nat
  | .mk _ r _ _ => r

/-- The optional `Index Name` value of a plan node. -/
def PlanNode.indexName : PlanNode → Option String
  | .mk _ _ i _ => i

/-- The children of a plan node (the `Plans` key). -/
def PlanNode.children : PlanNode → PlanForest
  | .mk _ _ _ f => f

/-- Result dict of `QueryAnalyzer._extract_scan_info`. -/
structure ScanInfo where
  primary_scan : String
  index_used : Bool
  index_name : Option String
  rows_scanned : Nat
  scans_found : List String
deriving DecidableEq

/-- The `self.scan_types` lookup table of `QueryAnalyzer`, read with
`self.scan_types.get(node_type, 'unknown')`. -/
def scan_types_get (node_type : String) : String :=
  if node_type = "Seq Scan" then "sequential"
  else if node_type = "Index Scan" then "index"
  else if node_type = "Index Only Scan" then "index_only"
  else if node_type = "Bitmap Heap Scan" then "bitmap"
  else "unknown"

mutual
/-- `QueryAnalyzer._extract_scan_info(plan, level)`: the per-node update of
the `info` dict followed by the loop over the child plans. -/
def extract_scan_info : PlanNode → Nat → ScanInfo
  | .mk nodeType actualRows indexName children, level =>
    let info0 : ScanInfo := ⟨"unknown", false, none, 0, []⟩
    let info1 : ScanInfo :=
      if pyContains "Scan" nodeType then
        let i1 := { info0 with scans_found := info0.scans_found ++ [nodeType] }
        let i2 :=
          if level == 0 || i1.primary_scan == "" then
            { i1 with primary_scan := scan_types_get nodeType }
          else i1
        let i3 :=
          if pyContains "Index" nodeType then
            { i2 with index_used := true, index_name := indexName }
          else i2
        { i3 with rows_scanned := i3.rows_scanned + actualRows }
      else info0
    extract_scan_children info1 children level

/-- The `for child_plan in plan['Plans']` loop of `_extract_scan_info`:
merge each child's info into the accumulated `info` dict. -/
def extract_scan_children : ScanInfo → PlanForest → Nat → ScanInfo
  | info, .nil, _ => info
  | info, .cons c rest, level =>
    let child_info := extract_scan_info c (level + 1)
    let i1 :=
      if !info.index_used && child_info.index_used then
        { info with index_used := child_info.index_used, index_name := child_info.index_name }
      else info
    let i2 := { i1 with
      rows_scanned := i1.rows_scanned + child_info.rows_scanned,
      scans_found := i1.scans_found ++ child_info.scans_found }
    extract_scan_children i2 rest level
end

mutual
/-- Modelled from the spec for the C8 comparison: the sum of `actualRows`
over every node of the tree whose kind label contains the scan marker,
regardless of nesting depth. -/
def sumScanRows : PlanNode → Nat
  | .mk nodeType actualRows _ children =>
    (if pyContains "Scan" nodeType then actualRows else 0) + sumScanRowsF children

/-- Sum of `sumScanRows` over a forest. -/
def sumScanRowsF : PlanForest → Nat
  | .nil => 0
  | .cons p f => sumScanRows p + sumScanRowsF f
end

/-- One recommendation record from `QueryAnalyzer._generate_recommendations`. -/
structure Recommendation where
  type : String
  priority : String
  action : String
  reasoning : String
  expected_improvement : String
deriving DecidableEq

/-- `QueryAnalyzer._detect_issues(plan, scan_info, execution_time)`. -/
def detect_issues (plan : PlanNode) (scan_info : ScanInfo) (execution_time : ℚ) : List String :=
  (if scan_info.primary_scan = "sequential" then
      (if scan_info.rows_scanned > 1000 then ["SEQUENTIAL_SCAN_LARGE_DATASET"]
       else ["SEQUENTIAL_SCAN_SMALL_DATASET"])
    else [])
  ++ (if execution_time > 100 then ["HIGH_EXECUTION_TIME"] else [])
  ++ (if scan_info.index_used = false ∧ scan_info.rows_scanned > 500 then
        ["NO_INDEX_AVAILABLE"] else [])
  ++ (if scan_info.rows_scanned > 0 then
        (if (plan.actualRows : ℚ) / (scan_info.rows_scanned : ℚ) < 1 / 10
            ∧ scan_info.rows_scanned > 1000 then
          ["LOW_SELECTIVITY"] else [])
      else [])

/-- `QueryAnalyzer._generate_recommendations(issues, scan_info)`. -/
def generate_recommendations (issues : List String) (scan_info : ScanInfo) :
    List Recommendation :=
  (if issues.contains "SEQUENTIAL_SCAN_LARGE_DATASET" then
      [⟨"CREATE_INDEX", "HIGH", "create_hnsw_index",
        "Sequential scan detected on " ++ toString scan_info.rows_scanned ++
          " rows. Vector similarity search requires an index for acceptable performance.",
        "10-100x faster queries"⟩]
    else [])
  ++ (if issues.contains "HIGH_EXECUTION_TIME" && !scan_info.index_used then
      [⟨"CREATE_INDEX", "HIGH", "create_hnsw_index",
        "High execution time without index usage. HNSW index recommended.",
        "40-50x faster queries"⟩]
    else [])
  ++ (if issues.contains "NO_INDEX_AVAILABLE" then
      [⟨"CREATE_INDEX", "MEDIUM", "create_ivfflat_index",
        "No vector index found. Consider IVFFlat for larger datasets.",
        "20-30x faster queries"⟩]
    else [])
  ++ (if issues.contains "LOW_SELECTIVITY" then
      [⟨"OPTIMIZE_QUERY", "MEDIUM", "add_filters",
        "Low selectivity detected. Consider adding WHERE clauses.",
        "Reduced rows scanned"⟩]
    else [])

/-- The `EXPLAIN ANALYZE` JSON dict consumed by `QueryAnalyzer.analyze_plan`:
the `Plan`, `Execution Time` and `Planning Time` keys, each possibly absent.
A Python falsy input (`None` or the empty dict) is `Option.none` or an
`ExplainOutput` with every field `none`. -/
structure ExplainOutput where
  plan : Option PlanNode
  execution_time : Option ℚ
  planning_time : Option ℚ

/-- The analysis dict built by `QueryAnalyzer.analyze_plan` on valid input. -/
structure PlanAnalysis where
  execution_time_ms : ℚ
  planning_time_ms : ℚ
  total_time_ms : ℚ
  scan_type : String
  index_used : Bool
  rows_scanned : Nat
  rows_returned : Nat
  issues : List String
  recommendations : List Recommendation
  raw_plan : PlanNode

/-- Result of `QueryAnalyzer.analyze_plan`: either the error dict
`{'error': ...}` or the analysis dict. -/
inductive AnalyzeResult : Type where
  | err (msg : String)
  | ok (analysis : PlanAnalysis)

/-- Is the result the error dict? -/
def AnalyzeResult.isErr : AnalyzeResult → Bool
  | .err _ => true
  | .ok _ => false

/-- `QueryAnalyzer.analyze_plan(explain_output)`.  The source first checks
`if not explain_output or 'Plan' not in explain_output` and returns the
error dict; otherwise it reads the timings with default `0` and assembles
the analysis dict. -/
def analyze_plan (explain_output : Option ExplainOutput) : AnalyzeResult :=
  match explain_output with
  | none => .err "Invalid EXPLAIN output"
  | some e =>
    match e.plan with
    | none => .err "Invalid EXPLAIN output"
    | some plan =>
      let execution_time := e.execution_time.getD 0
      let planning_time := e.planning_time.getD 0
      let scan_info := extract_scan_info plan 0
      let issues := detect_issues plan scan_info execution_time
      let recommendations := generate_recommendations issues scan_info
      .ok ⟨execution_time, planning_time, execution_time + planning_time,
        scan_info.primary_scan, scan_info.index_used, scan_info.rows_scanned,
        plan.actualRows, issues, recommendations, plan⟩

/-- A malformed input in the sense of the spec: empty input, or input
lacking a `Plan` entry. -/
def invalid_explain (x : Option ExplainOutput) : Prop :=
  x = none ∨ ∃ e, x = some e ∧ e.plan = none

/-! ## Decision engine (`optimizer.py`) -/

/-- A Python exception escaping a modelled function. -/
inductive PyError : Type where
  | keyError (key : String)
deriving DecidableEq

/-- Outcome of the `ollama.chat` advisory call inside
`LLMOptimizer.decide_optimization`: either the reply text, or any raised
exception (timeout, transport error, malformed response object), which the
surrounding `except` handler turns into the fallback path. -/
inductive OracleOutcome : Type where
  | reply (text : String)
  | failure
deriving DecidableEq

/-- The decision dict produced by `LLMOptimizer`.  `index_type`,
`expected_improvement` and `confidence` are `Option`s: `none` stands for
Python `None` or for the key being absent (the dict returned by
`AutoTuningAgent.reason` on the no-issue path carries only `action` and
`reasoning`). -/
structure Decision where
  action : String
  reasoning : String
  index_type : Option String
  expected_improvement : Option String
  confidence : Option String
deriving DecidableEq

/-- The analysis dict flowing into `LLMOptimizer`.  `execution_time_ms`,
`scan_type`, `index_used`, `planning_time_ms` and `issues` are present in
every producer; `rows_scanned` and `rows_returned` are present only in
`QueryAnalyzer.analyze_plan` output, not in the dicts built by
`DatabaseManager.analyze_query` / `AutoTuningAgent.observe`, so they are
`Option`s and reading them can raise `KeyError`. -/
structure AnalysisDict where
  execution_time_ms : ℚ
  scan_type : String
  index_used : Bool
  planning_time_ms : ℚ
  rows_scanned : Option Nat
  rows_returned : Option Nat
  issues : List String
  error : Option String
deriving DecidableEq

/-- The per-line update of `LLMOptimizer._parse_llm_response`: the
`for line in llm_output.split('\n')` loop body that scrapes the
`REASONING:` and `EXPECTED_IMPROVEMENT:` lines. -/
def parse_lines_step (d : Decision) (line : String) : Decision :=
  if pyStartsWith (pyStrip line) "REASONING:" then
    { d with reasoning := pyStrip (pyReplace line "REASONING:" "") }
  else if pyStartsWith (pyStrip line) "EXPECTED_IMPROVEMENT:" then
    { d with expected_improvement := some (pyStrip (pyReplace line "EXPECTED_IMPROVEMENT:" "")) }
  else d

/-- `LLMOptimizer._parse_llm_response(llm_output, analysis)`. -/
def parse_llm_response (llm_output : String) (analysis : AnalysisDict) : Decision :=
  let d0 : Decision := ⟨"no_action", llm_output, none, some "Unknown", some "medium"⟩
  let llm_lower := pyLower llm_output
  let d1 :=
    if pyContains "create_hnsw_index" llm_lower || pyContains "hnsw" llm_lower then
      { d0 with action := "create_hnsw_index", index_type := some "hnsw" }
    else if pyContains "create_ivfflat_index" llm_lower || pyContains "ivfflat" llm_lower then
      { d0 with action := "create_ivfflat_index", index_type := some "ivfflat" }
    else if pyContains "optimize_query" llm_lower then
      { d0 with action := "optimize_query" }
    else d0
  let d2 := (pySplitLines llm_output).foldl parse_lines_step d1
  let conf : String :=
    if analysis.execution_time_ms > 200 then "high"
    else if analysis.execution_time_ms > 100 then "medium"
    else "low"
  { d2 with confidence := some conf }

/-- `LLMOptimizer._fallback_decision(analysis)`.  The source reads
`analysis['rows_scanned']` with plain indexing, so a dict without that key
raises `KeyError` out of the fallback. -/
def fallback_decision (analysis : AnalysisDict) : Except PyError Decision :=
  let d0 : Decision :=
    ⟨"no_action", "Fallback rule-based decision", none, some "Unknown", some "low"⟩
  if analysis.execution_time_ms > 100 ∧ analysis.index_used = false then
    match analysis.rows_scanned with
    | none => .error (.keyError "rows_scanned")
    | some rows_scanned =>
      if rows_scanned < 100000 then
        .ok { d0 with
          action := "create_hnsw_index", index_type := some "hnsw",
          reasoning := "Dataset size suitable for HNSW. High performance required.",
          expected_improvement := some "10-50x faster" }
      else
        .ok { d0 with
          action := "create_ivfflat_index", index_type := some "ivfflat",
          reasoning := "Large dataset. IVFFlat more memory efficient.",
          expected_improvement := some "20-30x faster" }
  else .ok d0

/-- `LLMOptimizer.decide_optimization(analysis)`: on a successful oracle
reply, parse it; on any oracle exception, run the rule-based fallback.
The prompt built by `_build_optimization_prompt` is consumed only by the
external oracle, which is abstracted into `OracleOutcome`. -/
def decide_optimization (oracle : OracleOutcome) (analysis : AnalysisDict) :
    Except PyError Decision :=
  match oracle with
  | .reply text => .ok (parse_llm_response text analysis)
  | .failure => fallback_decision analysis

/-- The HNSW `CREATE INDEX` statement of `LLMOptimizer.generate_sql`. -/
def hnsw_sql (tenant_id : String) : String :=
  "\nCREATE INDEX IF NOT EXISTS idx_embedding_hnsw_" ++ tenant_id ++
    "\nON rag_system.documents\nUSING hnsw (embedding vector_cosine_ops)\nWITH (m = 16, ef_construction = 64);\n"

/-- The IVFFlat `CREATE INDEX` statement of `LLMOptimizer.generate_sql`. -/
def ivfflat_sql (tenant_id : String) : String :=
  "\nCREATE INDEX IF NOT EXISTS idx_embedding_ivfflat_" ++ tenant_id ++
    "\nON rag_system.documents\nUSING ivfflat (embedding vector_cosine_ops)\nWITH (lists = 100);\n"

/-- `LLMOptimizer.generate_sql(decision, tenant_id)`; `none` is Python
`None`. -/
def generate_sql (decision : Decision) (tenant_id : String) : Option String :=
  if decision.action = "create_hnsw_index" then some (hnsw_sql tenant_id)
  else if decision.action = "create_ivfflat_index" then some (ivfflat_sql tenant_id)
  else none

/-! ## Storage engine state (`database.py`) -/

/-- The modelled storage-engine state: the set of index names existing in
the `rag_system` schema (what the `pg_indexes` existence check sees). -/
structure DBState where
  indexes : List String
deriving DecidableEq

/-- `DatabaseManager.create_index(index_name, index_type)` (the non-legacy
definition at `database.py:238`).  It runs the `pg_indexes` existence
check and returns early when the index is present.  When the index is
absent, the source assigns the `DROP INDEX` statement string to
`drop_query` and the function body ends there: no `CREATE INDEX` (and no
registry insert) is ever executed, so the state is returned unchanged on
that path too. -/
def create_index (db : DBState) (index_name : String) (index_type : String) : DBState :=
  if db.indexes.contains index_name then db
  else
    let drop_query := "DROP INDEX IF EXISTS rag_system." ++ index_name ++ ";"
    let _ := drop_query
    let _ := index_type
    db

/-- The raw analysis dict returned by `DatabaseManager.analyze_query`:
keys `execution_time_ms`, `scan_type`, `index_used`, `planning_time_ms`,
plus `error` on the degraded path.  There is no `rows_scanned` key. -/
structure RawAnalysis where
  execution_time_ms : ℚ
  scan_type : String
  index_used : Bool
  planning_time_ms : ℚ
  error : Option String
deriving DecidableEq

/-- The degraded sentinel analysis returned by
`DatabaseManager.analyze_query` when the storage engine raises: fabricated
`100.0` ms execution time, scan type `"ERROR"`, no index. -/
def degraded_analysis (e : String) : RawAnalysis := ⟨100, "ERROR", false, 0, some e⟩

/-! ## Controller (`agent_core.py`) -/

/-- The mutable fields of `AutoTuningAgent` together with the storage
state it acts on: `optimization_count` and `total_improvement` are the
controller statistics. -/
structure AgentState where
  db : DBState
  optimization_count : Nat
  total_improvement : ℚ
deriving DecidableEq

/-- The action-result dict of `AutoTuningAgent.act`.  On the `no_action`
path the source returns `{'success': True, 'message': 'No action taken'}`,
a dict without the `action` / `sql_executed` / `error` keys; the `Option`
fields reflect which keys are present. -/
structure ActionResult where
  action : Option String
  success : Bool
  sql_executed : Option String
  error : Option String
  message : Option String
deriving DecidableEq

/-- The result of `AutoTuningAgent.act` on `no_action`. -/
def no_action_result : ActionResult := ⟨none, true, none, none, some "No action taken"⟩

/-- `AutoTuningAgent.observe`: take the raw dict from
`DatabaseManager.analyze_query` and attach the coarse issue list
(`high_latency` over the 20 ms threshold, `missing_index` when no index
was used).  The metric logging is best-effort and does not touch the
modelled state. -/
def observe (raw : RawAnalysis) : AnalysisDict :=
  { execution_time_ms := raw.execution_time_ms
    scan_type := raw.scan_type
    index_used := raw.index_used
    planning_time_ms := raw.planning_time_ms
    rows_scanned := none
    rows_returned := none
    issues :=
      (if raw.execution_time_ms > 20 then ["high_latency"] else []) ++
        (if raw.index_used = false then ["missing_index"] else [])
    error := raw.error }

/-- `AutoTuningAgent.reason(analysis)`.  The second component records
whether the advisory oracle was consulted (`decide_optimization` ran). -/
def reason (oracle : OracleOutcome) (analysis : AnalysisDict) :
    Except PyError Decision × Bool :=
  if analysis.issues = [] then
    (.ok ⟨"no_action", "Performance is acceptable", none, none, none⟩, false)
  else
    (decide_optimization oracle analysis, true)

/-- `AutoTuningAgent.act(decision, tenant_id)`.  For a create-index action
the source builds the index name, calls `DatabaseManager.create_index`,
marks success, logs the action (best-effort) and increments
`optimization_count`; exceptions inside the `try` are caught into
`success = False`.  When `decision['index_type']` is `None` on the create
path, the `index_type.upper()` call in the log line raises
`AttributeError`, which the handler catches. -/
def act (agent : AgentState) (decision : Decision) (tenant_id : String) :
    AgentState × ActionResult :=
  if decision.action = "no_action" then (agent, no_action_result)
  else
    match generate_sql decision tenant_id with
    | none => (agent, ⟨some decision.action, false, none, some "No SQL generated", none⟩)
    | some sql =>
      if pyContains "create_" decision.action && pyContains "index" decision.action then
        match decision.index_type with
        | none =>
          (agent, ⟨some decision.action, false, some sql,
            some "AttributeError: NoneType object has no attribute upper", none⟩)
        | some index_type =>
          let index_name := "idx_embedding_" ++ index_type ++ "_" ++ tenant_id
          let db1 := create_index agent.db index_name index_type
          ({ agent with db := db1, optimization_count := agent.optimization_count + 1 },
            ⟨some decision.action, true, some sql, none, none⟩)
      else
        ({ agent with optimization_count := agent.optimization_count + 1 },
          ⟨some decision.action, false, some sql, none, none⟩)

/-- The cycle-result dict of `AutoTuningAgent.run_optimization_cycle`.
`cycle_time_seconds` is wall-clock time, not modelled, and is fixed to
`0` here. -/
structure CycleResult where
  analysis_before : AnalysisDict
  decision : Decision
  action_result : ActionResult
  analysis_after : Option AnalysisDict
  improvement_percentage : Option ℚ
  cycle_time_seconds : ℚ
deriving DecidableEq

/-- `AutoTuningAgent.run_optimization_cycle(query_text, tenant_id)`.
The embedding call and the two storage-engine observations are external:
`rawBefore` and `rawAfter` are the raw dicts the two
`DatabaseManager.analyze_query` calls return, and `oracle` is the
advisory-call outcome.  An uncaught Python exception (the `KeyError`
escaping `reason`) aborts the cycle, modelled by `Except.error`. -/
def run_optimization_cycle (agent : AgentState) (tenant_id : String)
    (rawBefore : RawAnalysis) (oracle : OracleOutcome) (rawAfter : RawAnalysis) :
    Except PyError (AgentState × CycleResult) :=
  let analysis_before := observe rawBefore
  match reason oracle analysis_before with
  | (.error e, _) => .error e
  | (.ok decision, _) =>
    match act agent decision tenant_id with
    | (agent1, action_result) =>
      if action_result.success && pyContains "create_" decision.action then
        let analysis_after := observe rawAfter
        let time_before := analysis_before.execution_time_ms
        let time_after := analysis_after.execution_time_ms
        let improvement := (time_before - time_after) / time_before * 100
        .ok ({ agent1 with total_improvement := agent1.total_improvement + improvement },
          ⟨analysis_before, decision, action_result, some analysis_after, some improvement, 0⟩)
      else
        .ok (agent1, ⟨analysis_before, decision, action_result, none, none, 0⟩)

/-! ## Concrete inputs used by witnesses and counterexamples -/

/-- A fresh controller over an empty index registry. -/
def agent0 : AgentState := ⟨⟨[]⟩, 0, 0⟩

/-- A controller whose storage already holds the default-tenant HNSW index. -/
def agent_with_index : AgentState := ⟨⟨["idx_embedding_hnsw_default"]⟩, 0, 0⟩

/-- A create-HNSW decision as the fallback produces it. -/
def decision_hnsw : Decision :=
  ⟨"create_hnsw_index", "Dataset size suitable for HNSW. High performance required.",
    some "hnsw", some "10-50x faster", some "low"⟩

/-- A raw observation: 150 ms sequential scan without an index. -/
def raw_slow_noindex : RawAnalysis := ⟨150, "Seq Scan", false, 0, none⟩

/-- A raw observation after an index is in place: 30 ms index scan. -/
def raw_after_fast : RawAnalysis := ⟨30, "Index Scan", true, 0, none⟩

/-- A raw observation with 120 ms execution time (spec example). -/
def raw_before_120 : RawAnalysis := ⟨120, "Seq Scan", false, 0, none⟩

/-- A raw observation with 12 ms execution time (spec example). -/
def raw_after_12 : RawAnalysis := ⟨12, "Index Scan", true, 0, none⟩

/-- An oracle reply that names the HNSW action. -/
def oracle_hnsw : OracleOutcome := .reply "ACTION: create_hnsw_index"

/-- An analyzer-shaped analysis dict: 150 ms, no index, 50000 rows scanned. -/
def analysis_rows_50000 : AnalysisDict :=
  ⟨150, "Seq Scan", false, 0, some 50000, some 10, ["high_latency", "missing_index"], none⟩

/-- The decision `fallback_decision` returns on `analysis_rows_50000`. -/
def fallback_hnsw_decision : Decision :=
  ⟨"create_hnsw_index", "Dataset size suitable for HNSW. High performance required.",
    some "hnsw", some "10-50x faster", some "low"⟩

/-- An analysis dict with an empty issue list. -/
def analysis_no_issues : AnalysisDict := ⟨10, "Index Scan", true, 0, none, none, [], none⟩

/-- The state/result pair of the cycle run on the 120 ms / 12 ms spec example. -/
def cycle_120_12 : AgentState × CycleResult :=
  (run_optimization_cycle agent0 "default" raw_before_120 oracle_hnsw raw_after_12).toOption.getD
    (agent0, ⟨observe raw_before_120, ⟨"", "", none, none, none⟩, no_action_result, none, none, 0⟩)

/-! ## Helper lemmas -/

theorem strStarts_iff (p : List Char) : ∀ l : List Char, strStarts l p = true ↔ p <+: l := by
  induction p with
  | nil =>
    intro l
    cases l <;> simp [strStarts]
  | cons d ds ih =>
    intro l
    cases l with
    | nil => simp [strStarts]
    | cons c cs =>
      simp only [strStarts, Bool.and_eq_true, beq_iff_eq, ih, List.cons_prefix_cons]
      constructor
      · rintro ⟨h1, h2⟩; exact ⟨h1.symm, h2⟩
      · rintro ⟨h1, h2⟩; exact ⟨h1.symm, h2⟩

theorem containsL_iff (p : List Char) : ∀ l : List Char, containsL p l = true ↔ p <:+: l := by
  intro l
  induction l with
  | nil =>
    cases p <;> simp [containsL, List.isEmpty]
  | cons c cs ih =>
    simp only [containsL, Bool.or_eq_true, strStarts_iff, ih, List.infix_cons_iff]

theorem contains_trans (a b hay : String) (h1 : containsL a.data b.data = true)
    (h2 : pyContains b hay = true) : pyContains a hay = true := by
  unfold pyContains at h2 ⊢
  rw [containsL_iff] at h1 h2 ⊢
  exact h1.trans h2

theorem extract_children_primary (f : PlanForest) :
    ∀ (info : ScanInfo) (level : Nat),
      (extract_scan_children info f level).primary_scan = info.primary_scan := by
  refine @PlanForest.rec (fun _ => True)
    (fun f => ∀ (info : ScanInfo) (level : Nat),
      (extract_scan_children info f level).primary_scan = info.primary_scan)
    (fun _ _ _ _ _ => trivial) ?_ ?_ f
  · intro info level
    simp [extract_scan_children]
  · intro p f _ ih info level
    simp only [extract_scan_children]
    rw [ih]
    split <;> rfl

theorem extract_rows_helper (p : PlanNode) :
    ∀ level : Nat, (extract_scan_info p level).rows_scanned = sumScanRows p := by
  refine @PlanNode.rec
    (fun p => ∀ level : Nat, (extract_scan_info p level).rows_scanned = sumScanRows p)
    (fun f => ∀ (info : ScanInfo) (level : Nat),
      (extract_scan_children info f level).rows_scanned = info.rows_scanned + sumScanRowsF f)
    ?_ ?_ ?_ p
  · intro nt rows iname children ih level
    simp only [extract_scan_info, sumScanRows]
    rw [ih]
    by_cases h : pyContains "Scan" nt = true
    · simp only [h, if_true]
      split <;> split <;> simp
    · simp only [h]
      simp
  · intro info level
    simp [extract_scan_children, sumScanRowsF]
  · intro p f ihp ihf info level
    simp only [extract_scan_children, sumScanRowsF]
    rw [ihf, ihp]
    split <;> simp <;> omega

theorem parse_lines_step_action (d : Decision) (l : String) :
    (parse_lines_step d l).action = d.action := by
  unfold parse_lines_step
  split
  · rfl
  · split <;> rfl

theorem parse_lines_step_index (d : Decision) (l : String) :
    (parse_lines_step d l).index_type = d.index_type := by
  unfold parse_lines_step
  split
  · rfl
  · split <;> rfl

theorem foldl_lines_action (lines : List String) :
    ∀ d : Decision, (lines.foldl parse_lines_step d).action = d.action := by
  induction lines with
  | nil => intro d; rfl
  | cons l ls ih =>
    intro d
    simp only [List.foldl_cons]
    rw [ih, parse_lines_step_action]

theorem foldl_lines_index (lines : List String) :
    ∀ d : Decision, (lines.foldl parse_lines_step d).index_type = d.index_type := by
  induction lines with
  | nil => intro d; rfl
  | cons l ls ih =>
    intro d
    simp only [List.foldl_cons]
    rw [ih, parse_lines_step_index]

theorem parse_confidence_eq (t : String) (a : AnalysisDict) :
    (parse_llm_response t a).confidence =
      some (if a.execution_time_ms > 200 then "high"
        else if a.execution_time_ms > 100 then "medium"
        else "low") := rfl

theorem parse_action_eq (t : String) (a : AnalysisDict) :
    (parse_llm_response t a).action =
      (if pyContains "create_hnsw_index" (pyLower t) || pyContains "hnsw" (pyLower t) then
        "create_hnsw_index"
      else if pyContains "create_ivfflat_index" (pyLower t) || pyContains "ivfflat" (pyLower t) then
        "create_ivfflat_index"
      else if pyContains "optimize_query" (pyLower t) then "optimize_query"
      else "no_action") := by
  unfold parse_llm_response
  dsimp only
  rw [foldl_lines_action]
  split
  · rfl
  · split
    · rfl
    · split <;> rfl

theorem parse_index_eq (t : String) (a : AnalysisDict) :
    (parse_llm_response t a).index_type =
      (if pyContains "create_hnsw_index" (pyLower t) || pyContains "hnsw" (pyLower t) then
        some "hnsw"
      else if pyContains "create_ivfflat_index" (pyLower t) || pyContains "ivfflat" (pyLower t) then
        some "ivfflat"
      else none) := by
  unfold parse_llm_response
  dsimp only
  rw [foldl_lines_index]
  split
  · rfl
  · split
    · rfl
    · split <;> rfl

theorem reason_of_issues (o : OracleOutcome) (a : AnalysisDict) (h : a.issues ≠ []) :
    reason o a = (decide_optimization o a, true) := by
  unfold reason
  rw [if_neg h]

theorem act_total_improvement (ag : AgentState) (d : Decision) (t : String) :
    (act ag d t).1.total_improvement = ag.total_improvement := by
  unfold act
  split
  · rfl
  · split
    · rfl
    · split
      · split <;> rfl
      · rfl

/-! ## Claim theorems -/

/-- C1: the executor reports `success = true` for a create-index action even
though the requested index does not exist afterwards.  Starting from an
empty index registry with the create-HNSW decision, `act` returns
`success = true`, yet the registry is still empty: `create_index` returns
after the existence check without executing any `CREATE INDEX`, so success
does not imply that `idx_embedding_hnsw_default` now exists. -/
theorem act_success_without_index :
    (pyContains "create_" decision_hnsw.action && pyContains "index" decision_hnsw.action) = true ∧
    (act agent0 decision_hnsw "default").2.success = true ∧
    (act agent0 decision_hnsw "default").1.db.indexes = [] :=
  ⟨rfl, rfl, rfl⟩

/-- C2: the Reasoning phase can raise.  On the analysis the Observing phase
produces from a 150 ms sequential scan without an index (a dict that has no
`rows_scanned` key), an oracle failure sends `decide_optimization` into
`_fallback_decision`, which reads `analysis['rows_scanned']` and raises
`KeyError`, so the cycle does not complete with a `CycleResult`. -/
theorem reason_keyerror_on_oracle_failure :
    reason .failure (observe raw_slow_noindex) =
      (.error (.keyError "rows_scanned"), true) ∧
    run_optimization_cycle agent0 "default" raw_slow_noindex .failure raw_after_fast =
      .error (.keyError "rows_scanned") :=
  ⟨rfl, rfl⟩

/-- C5 counterexample: on empty input, `analyze_plan` returns the error
dict `{'error': 'Invalid EXPLAIN output'}`, not an analysis with
`primaryScanKind = unknown` and `rowsScanned = 0`. -/
theorem analyze_plan_malformed_counterexample :
    analyze_plan none = .err "Invalid EXPLAIN output" ∧
    (analyze_plan none).isErr = true :=
  ⟨rfl, rfl⟩

/-- C5 (amended): plan analysis is a pure total function that never raises;
on malformed input (empty input or input lacking a `Plan` entry) it returns
the error record `{'error': 'Invalid EXPLAIN output'}` instead of an
analysis. -/
theorem analyze_plan_malformed_err :
    ∀ x : Option ExplainOutput, invalid_explain x →
      analyze_plan x = .err "Invalid EXPLAIN output" := by
  intro x h
  rcases h with h | ⟨e, he, hp⟩
  · rw [h]; rfl
  · rw [he]
    unfold analyze_plan
    dsimp only
    rw [hp]

/-- C5 witness: the amended theorem applied to the empty input. -/
theorem analyze_plan_malformed_err_witness :
    analyze_plan none = .err "Invalid EXPLAIN output" :=
  analyze_plan_malformed_err none (Or.inl rfl)

/-- C6: when the analysis has an empty issue list, `reason` immediately
returns the `no_action` decision and the advisory oracle is not invoked
(the oracle-consulted flag is `false`, for every oracle behaviour). -/
theorem reason_no_issues_no_oracle :
    ∀ (oracle : OracleOutcome) (a : AnalysisDict), a.issues = [] →
      reason oracle a =
        (.ok ⟨"no_action", "Performance is acceptable", none, none, none⟩, false) := by
  intro oracle a h
  unfold reason
  rw [if_pos h]

/-- C6 witness: the theorem applied to a concrete no-issue analysis with a
failing oracle. -/
theorem reason_no_issues_no_oracle_witness :
    reason .failure analysis_no_issues =
      (.ok ⟨"no_action", "Performance is acceptable", none, none, none⟩, false) :=
  reason_no_issues_no_oracle .failure analysis_no_issues rfl

/-- C7: the primary scan kind is classified from the root node only: it is
the scan-type table entry for the root's kind when the root's kind label
contains the scan marker, and `unknown` otherwise — for every forest of
descendants, so scans deeper in the tree never override the root-level
classification. -/
theorem primary_scan_root_classification :
    ∀ (nodeType : String) (actualRows : Nat) (indexName : Option String)
      (children : PlanForest),
      (extract_scan_info (.mk nodeType actualRows indexName children) 0).primary_scan =
        (if pyContains "Scan" nodeType then scan_types_get nodeType else "unknown") := by
  intro nt rows iname children
  simp only [extract_scan_info]
  rw [extract_children_primary]
  by_cases h : pyContains "Scan" nt = true <;> simp [h, apply_ite]

/-- C8: for every plan tree, the `rows_scanned` computed by
`_extract_scan_info` equals the sum of `actualRows` over every node whose
kind label contains the scan marker, at any nesting depth; non-scan nodes
contribute nothing. -/
theorem rows_scanned_eq_sum :
    ∀ p : PlanNode, (extract_scan_info p 0).rows_scanned = sumScanRows p :=
  fun p => extract_rows_helper p 0

/-- C4 counterexample: a fallback decision at 150 ms (inside the claimed
`medium` band `100 < t <= 200`) carries confidence `low`, not `medium` —
the fallback path fixes confidence to `low` regardless of execution time,
so the claimed biconditional fails for fallback-produced decisions. -/
theorem fallback_confidence_counterexample :
    (100 : ℚ) < analysis_rows_50000.execution_time_ms ∧
    analysis_rows_50000.execution_time_ms ≤ 200 ∧
    fallback_decision analysis_rows_50000 = .ok fallback_hnsw_decision ∧
    fallback_hnsw_decision.confidence ≠ some "medium" :=
  ⟨by decide, by decide, rfl, by decide⟩

/-- C4 (amended): for oracle-parsed decisions the confidence thresholds
hold as stated — `high` iff `executionTimeMs > 200`, `medium` iff
`100 < executionTimeMs <= 200`, `low` otherwise, regardless of the reply
text and hence of the action chosen — while every decision returned by the
rule-based fallback has confidence `low`. -/
theorem confidence_characterization :
    ∀ (t : String) (a : AnalysisDict),
      ((parse_llm_response t a).confidence = some "high" ↔ a.execution_time_ms > 200) ∧
      ((parse_llm_response t a).confidence = some "medium" ↔
        (100 < a.execution_time_ms ∧ a.execution_time_ms ≤ 200)) ∧
      ((parse_llm_response t a).confidence = some "low" ↔ a.execution_time_ms ≤ 100) ∧
      (∀ d : Decision, fallback_decision a = .ok d → d.confidence = some "low") := by
  intro t a
  have hhm : ("high" : String) ≠ "medium" := by decide
  have hhl : ("high" : String) ≠ "low" := by decide
  have hmh : ("medium" : String) ≠ "high" := by decide
  have hml : ("medium" : String) ≠ "low" := by decide
  have hlh : ("low" : String) ≠ "high" := by decide
  have hlm : ("low" : String) ≠ "medium" := by decide
  have hfall : ∀ d : Decision, fallback_decision a = .ok d → d.confidence = some "low" := by
    intro d h
    unfold fallback_decision at h
    split at h
    · split at h
      · exact absurd h (by simp)
      · split at h
        · injection h with h
          subst h
          rfl
        · injection h with h
          subst h
          rfl
    · injection h with h
      subst h
      rfl
  by_cases h2 : a.execution_time_ms > 200
  · have h1 : a.execution_time_ms > 100 := by linarith
    refine ⟨?_, ?_, ?_, hfall⟩
    · simp [parse_confidence_eq, h2, h1]
    · simp [parse_confidence_eq, h2, hhm]
    · simp [parse_confidence_eq, h2, hhl]
      linarith
  · by_cases h1 : a.execution_time_ms > 100
    · push_neg at h2
      refine ⟨?_, ?_, ?_, hfall⟩
      · simp [parse_confidence_eq, h1, hmh]
      · simp [parse_confidence_eq, h1, h2, not_lt.mpr h2]
      · simp [parse_confidence_eq, h1, not_lt.mpr h2, hml]
    · push_neg at h1
      refine ⟨?_, ?_, ?_, hfall⟩
      · simp [parse_confidence_eq, not_lt.mpr h1, not_lt.mpr (by linarith : a.execution_time_ms ≤ 200), hlh]
      · simp [parse_confidence_eq, not_lt.mpr h1, not_lt.mpr (by linarith : a.execution_time_ms ≤ 200), hlm]
      · simp [parse_confidence_eq, not_lt.mpr h1, not_lt.mpr (by linarith : a.execution_time_ms ≤ 200)]
        linarith

/-- C4 witness: the fallback conjunct of the amended theorem applied to the
concrete 150 ms analysis, discharging the hypothesis with the computed
fallback decision. -/
theorem confidence_characterization_witness :
    fallback_hnsw_decision.confidence = some "low" :=
  (confidence_characterization "" analysis_rows_50000).2.2.2 fallback_hnsw_decision rfl

/-- C10: oracle-reply parsing gives the `hnsw` token priority.  Whenever the
lowercased reply contains `hnsw` anywhere, the parsed decision is
`create_hnsw_index` with index type `hnsw`; the `ivfflat` branch is reached
only when no `hnsw` token occurs, and the `optimize_query` branch only when
neither `hnsw` nor `ivfflat` occurs. -/
theorem parse_hnsw_priority :
    ∀ (t : String) (a : AnalysisDict),
      (pyContains "hnsw" (pyLower t) = true →
        (parse_llm_response t a).action = "create_hnsw_index" ∧
        (parse_llm_response t a).index_type = some "hnsw") ∧
      (pyContains "hnsw" (pyLower t) = false → pyContains "ivfflat" (pyLower t) = true →
        (parse_llm_response t a).action = "create_ivfflat_index" ∧
        (parse_llm_response t a).index_type = some "ivfflat") ∧
      (pyContains "hnsw" (pyLower t) = false → pyContains "ivfflat" (pyLower t) = false →
        pyContains "optimize_query" (pyLower t) = true →
        (parse_llm_response t a).action = "optimize_query") := by
  intro t a
  refine ⟨?_, ?_, ?_⟩
  · intro h
    rw [parse_action_eq, parse_index_eq]
    simp [h]
  · intro h0 h1
    have hc : pyContains "create_hnsw_index" (pyLower t) = false := by
      cases hx : pyContains "create_hnsw_index" (pyLower t) with
      | false => rfl
      | true =>
        have := contains_trans "hnsw" "create_hnsw_index" (pyLower t) rfl hx
        rw [h0] at this
        exact absurd this (by decide)
    rw [parse_action_eq, parse_index_eq]
    simp [h0, h1, hc]
  · intro h0 h1 h2
    have hc : pyContains "create_hnsw_index" (pyLower t) = false := by
      cases hx : pyContains "create_hnsw_index" (pyLower t) with
      | false => rfl
      | true =>
        have := contains_trans "hnsw" "create_hnsw_index" (pyLower t) rfl hx
        rw [h0] at this
        exact absurd this (by decide)
    have hd : pyContains "create_ivfflat_index" (pyLower t) = false := by
      cases hx : pyContains "create_ivfflat_index" (pyLower t) with
      | false => rfl
      | true =>
        have := contains_trans "ivfflat" "create_ivfflat_index" (pyLower t) rfl hx
        rw [h1] at this
        exact absurd this (by decide)
    rw [parse_action_eq]
    simp [h0, h1, h2, hc, hd]

/-- C10 witness: a reply mentioning both index families, with `hnsw` only
named in a rejection, still parses to the HNSW action. -/
theorem parse_hnsw_priority_witness :
    pyContains "hnsw" (pyLower "Maybe IVFFlat, maybe HNSW.") = true ∧
    ((parse_llm_response "Maybe IVFFlat, maybe HNSW." analysis_no_issues).action =
        "create_hnsw_index" ∧
      (parse_llm_response "Maybe IVFFlat, maybe HNSW." analysis_no_issues).index_type =
        some "hnsw") :=
  ⟨by decide,
    (parse_hnsw_priority "Maybe IVFFlat, maybe HNSW." analysis_no_issues).1 (by decide)⟩

/-- C3 counterexample: a second cycle on the default scope with the HNSW
index already present.  The executor does skip creation and reports
success, but `sql_executed` is the generated statement (not null), the
Verifying phase runs (`analysis_after` and `improvement_percentage` are
populated), and the statistics change: `optimization_count` goes from 0 to
1 — contradicting the claimed null statement, skipped Verifying phase and
unchanged statistics. -/
theorem second_cycle_skip_counterexample :
    (run_optimization_cycle agent_with_index "default" raw_slow_noindex oracle_hnsw
        raw_after_fast).toOption.map
      (fun r => (r.2.action_result.success, r.2.action_result.sql_executed.isSome,
        r.2.analysis_after.isSome, r.2.improvement_percentage.isSome,
        r.1.optimization_count)) = some (true, true, true, true, 1) := rfl

/-- C3 (amended): on a second cycle over a scope whose HNSW index already
exists, the existence check returns true and the executor skips creation
(the index set is unchanged) and returns `success = true` — but
`sql_executed` is the generated CREATE statement rather than null, the
Verifying phase does run, and the statistics change: `optimization_count`
is incremented and the computed improvement is accumulated into
`total_improvement`. -/
theorem second_cycle_skip_behavior :
    ∀ (agent : AgentState) (tenant : String) (rb : RawAnalysis) (t : String)
      (ra : RawAnalysis),
      (observe rb).issues ≠ [] →
      (parse_llm_response t (observe rb)).action = "create_hnsw_index" →
      (parse_llm_response t (observe rb)).index_type = some "hnsw" →
      agent.db.indexes.contains ("idx_embedding_hnsw_" ++ tenant) = true →
      ∃ (agent1 : AgentState) (res : CycleResult),
        run_optimization_cycle agent tenant rb (.reply t) ra = .ok (agent1, res) ∧
        agent1.db = agent.db ∧
        res.action_result.success = true ∧
        res.action_result.sql_executed = some (hnsw_sql tenant) ∧
        res.analysis_after = some (observe ra) ∧
        agent1.optimization_count = agent.optimization_count + 1 ∧
        agent1.total_improvement = agent.total_improvement +
          ((rb.execution_time_ms - ra.execution_time_ms) / rb.execution_time_ms * 100) := by
  intro agent tenant rb t ra hIss hAct hIdx hMem
  have hre : reason (.reply t) (observe rb) =
      (.ok (parse_llm_response t (observe rb)), true) := by
    rw [reason_of_issues _ _ hIss]
    rfl
  have hname : (("idx_embedding_" ++ "hnsw" ++ "_") ++ tenant) =
      ("idx_embedding_hnsw_" ++ tenant) := rfl
  have hact2 : act agent (parse_llm_response t (observe rb)) tenant =
      ({ agent with db := agent.db, optimization_count := agent.optimization_count + 1 },
        ⟨some "create_hnsw_index", true, some (hnsw_sql tenant), none, none⟩) := by
    unfold act
    rw [hAct, hIdx]
    unfold generate_sql
    rw [hAct]
    rw [if_neg (by decide : ¬ ("create_hnsw_index" : String) = "no_action")]
    rw [if_pos rfl]
    dsimp only
    rw [if_pos (by decide :
      (pyContains "create_" "create_hnsw_index" && pyContains "index" "create_hnsw_index")
        = true)]
    unfold create_index
    rw [hname, if_pos hMem]
  have hrun : run_optimization_cycle agent tenant rb (.reply t) ra = .ok
      (⟨agent.db, agent.optimization_count + 1,
          agent.total_improvement +
            ((rb.execution_time_ms - ra.execution_time_ms) / rb.execution_time_ms * 100)⟩,
        ⟨observe rb, parse_llm_response t (observe rb),
          ⟨some "create_hnsw_index", true, some (hnsw_sql tenant), none, none⟩,
          some (observe ra),
          some ((rb.execution_time_ms - ra.execution_time_ms) / rb.execution_time_ms * 100),
          0⟩) := by
    unfold run_optimization_cycle
    dsimp only
    rw [hre]
    dsimp only
    rw [hact2]
    dsimp only
    rw [hAct]
    rw [if_pos (by decide : (true && pyContains "create_" "create_hnsw_index") = true)]
    rfl
  exact ⟨_, _, hrun, rfl, rfl, rfl, rfl, rfl, rfl⟩

/-- C3 witness: the amended theorem applied to a concrete second cycle —
index already present, 150 ms before, 30 ms after — discharging every
hypothesis by computation. -/
theorem second_cycle_skip_behavior_witness :
    (run_optimization_cycle agent_with_index "default" raw_slow_noindex
        (.reply "ACTION: create_hnsw_index") raw_after_fast).toOption.map
      (fun r => (r.1.db, r.2.action_result.success, r.2.action_result.sql_executed)) =
      some (agent_with_index.db, true, some (hnsw_sql "default")) := by
  obtain ⟨agent1, res, hrun, hdb, hsucc, hsql, hafter, hcount, htot⟩ :=
    second_cycle_skip_behavior agent_with_index "default" raw_slow_noindex
      "ACTION: create_hnsw_index" raw_after_fast (by decide) rfl rfl rfl
  rw [hrun]
  dsimp [Except.toOption]
  rw [hdb, hsucc, hsql]

/-- C9: whenever the cycle produces an after-analysis, the improvement is
`(timeBefore - timeAfter) / timeBefore * 100` and it is accumulated into
the running `total_improvement`; and on the spec's 120 ms / 12 ms example
the computed improvement is exactly 90. -/
theorem improvement_formula :
    (∀ (agent : AgentState) (tenant : String) (rb : RawAnalysis)
        (oracle : OracleOutcome) (ra : RawAnalysis) (agent1 : AgentState)
        (res : CycleResult) (a : AnalysisDict),
      run_optimization_cycle agent tenant rb oracle ra = .ok (agent1, res) →
      res.analysis_after = some a →
      res.improvement_percentage =
          some ((res.analysis_before.execution_time_ms - a.execution_time_ms) /
            res.analysis_before.execution_time_ms * 100) ∧
        agent1.total_improvement = agent.total_improvement +
          ((res.analysis_before.execution_time_ms - a.execution_time_ms) /
            res.analysis_before.execution_time_ms * 100)) ∧
    (run_optimization_cycle agent0 "default" raw_before_120 oracle_hnsw
        raw_after_12).toOption.map (fun r => r.2.improvement_percentage) =
      some (some 90) := by
  constructor
  · intro agent tenant rb oracle ra agent1 res a h ha
    unfold run_optimization_cycle at h
    dsimp only at h
    rcases hr : reason oracle (observe rb) with ⟨ed, b⟩
    rw [hr] at h
    cases ed with
    | error e => simp at h
    | ok d =>
      dsimp only at h
      rcases hact3 : act agent d tenant with ⟨ag1, ar⟩
      rw [hact3] at h
      dsimp only at h
      split at h
      · rw [Except.ok.injEq, Prod.mk.injEq] at h
        obtain ⟨h1, h2⟩ := h
        subst h1
        subst h2
        rw [Option.some.injEq] at ha
        subst ha
        refine ⟨rfl, ?_⟩
        have htot : (act agent d tenant).1.total_improvement = agent.total_improvement :=
          act_total_improvement agent d tenant
        rw [hact3] at htot
        dsimp only
        rw [htot]
      · rw [Except.ok.injEq, Prod.mk.injEq] at h
        obtain ⟨h1, h2⟩ := h
        subst h2
        simp at ha
  · have hbase : (run_optimization_cycle agent0 "default" raw_before_120 oracle_hnsw
        raw_after_12).toOption.map (fun r => r.2.improvement_percentage) =
          some (some (((120 : ℚ) - 12) / 120 * 100)) := rfl
    have h90 : (((120 : ℚ) - 12) / 120 * 100) = 90 := by norm_num
    rw [h90] at hbase
    exact hbase

/-- C9 witness: the general conjunct applied to the concrete 120 ms / 12 ms
run, with both hypotheses discharged by computation. -/
theorem improvement_formula_witness :
    cycle_120_12.2.improvement_percentage =
        some ((cycle_120_12.2.analysis_before.execution_time_ms -
            (observe raw_after_12).execution_time_ms) /
          cycle_120_12.2.analysis_before.execution_time_ms * 100) ∧
      cycle_120_12.1.total_improvement = agent0.total_improvement +
        ((cycle_120_12.2.analysis_before.execution_time_ms -
            (observe raw_after_12).execution_time_ms) /
          cycle_120_12.2.analysis_before.execution_time_ms * 100) :=
  improvement_formula.1 agent0 "default" raw_before_120 oracle_hnsw raw_after_12
    cycle_120_12.1 cycle_120_12.2 (observe raw_after_12) rfl rfl
